import Mathlib

/-!
Verification of the agol-open-data-toolbox batch-publishing scripts.

The development shallowly embeds the three scripts the claims are about:

* `OTP` models `OneTimePublish.py`: the per-item publish pipeline
  (`import_data`, `add_data_to_map`, `publish_to_agol`) and the module-level
  loop over the `SGID.META.AGOLItems` worklist, including the write-back of
  the published item id.
* `NS` models `agol-publish/NightStocker.py`: the CSV worklist, the per-entry
  processing with its `try`/`except arcpy.ExecuteError`/`finally log_csv`
  structure, and `get_info`'s snippet truncation.
* `SEL` models `stewardship-endpoint-linker/main.py`: building the
  `table_map` from `META.AGOLITEMS` rows and rewriting the stewardship
  sheet's Endpoint column.

Side effects of the vendor libraries (arcpy, arcgis, pygsheets) are modelled
by an oracle of step outcomes and an event trace; Python strings are
modelled as `String` or `List Char` where character-level operations matter.
-/

namespace OTP

/-- Side-effecting steps of `OneTimePublish.py`, one constructor per vendor
call site that the claims talk about. `setProps` covers the
`item.update`/`item.share` block (metadata, tags, title, sharing);
`setCapabilities` is the separate `manager.update_definition` call. -/
inductive Ev
  | describe
  | createFGDB
  | importData
  | addToMap
  | stage
  | upload
  | publish
  | setProps
  | thumbnail
  | setCapabilities
  | writeBack
deriving DecidableEq, Repr

/-- Outcome oracle for one worklist item: what the environment and each
vendor call would do. `datasetType` is `arcpy.da.Describe`'s datasetType;
the `*Ok` flags say whether the corresponding call succeeds (raises no
exception; for `updateOk`, `item.update` returns a truthy value). -/
structure Oracle where
  describeOk : Bool
  datasetType : String
  fgdbExists : Bool
  outputExists : Bool
  layerOnMap : Bool
  mapExists : Bool
  stageOk : Bool
  uploadOk : Bool
  publishOk : Bool
  updateOk : Bool
  thumb1Ok : Bool
  thumb2Ok : Bool
  capOk : Bool
  itemId : String
deriving DecidableEq, Repr

/-- A row of the `SGID.META.AGOLItems` tracking table
(`TABLENAME`, `AGOL_PUBLISHED_NAME`, `AGOL_ITEM_ID`; NULL is `none`). -/
structure Row where
  tablename : String
  publishedName : String
  agolItemId : Option String
deriving DecidableEq, Repr

/-- `import_data` (OneTimePublish.py:61-75): create the file geodatabase
only when it does not exist, project/copy the data only when the output
table does not exist. The returned value is the event list of the
side effects performed. -/
def import_data (o : Oracle) : List Ev :=
  (if o.fgdbExists then [] else [.createFGDB]) ++
    (if o.outputExists then [] else [.importData])

/-- `add_data_to_map` (OneTimePublish.py:77-97): add the layer to the
category map only when no layer of that name is already on it. -/
def add_data_to_map (o : Oracle) : List Ev :=
  if o.layerOnMap then [] else [.addToMap]

/-- The thumbnail block of `publish_to_agol` (OneTimePublish.py:143-154):
try `item.create_thumbnail()`; on exception retry once; if the retry also
raises, append the item id to `missing_thumbnails` and carry on. Returns
the number of attempts made and the new `missing_thumbnails` list. -/
def create_thumbnail_with_retry (thumb1Ok thumb2Ok : Bool) (itemId : String)
    (missing : List String) : Nat × List String :=
  if thumb1Ok then (1, missing)
  else if thumb2Ok then (2, missing)
  else (2, missing ++ [itemId])

/-- Result of `publish_to_agol`: trace of vendor calls attempted,
additions to `missing_thumbnails`, and the returned `item.id`
(`none` when an exception escapes the function). -/
structure PubResult where
  trace : List Ev
  missing : List String
  result : Option String
deriving DecidableEq, Repr

/-- `publish_to_agol` (OneTimePublish.py:99-162): stage the service
definition, upload it, publish the feature service, update item
properties and share, create the thumbnail (with retry; a double failure
is swallowed), and enable the Query,Extract capabilities. Any other
failing step raises, escaping the function. -/
def publish_to_agol (o : Oracle) : PubResult :=
  if !o.stageOk then ⟨[.stage], [], none⟩
  else if !o.uploadOk then ⟨[.stage, .upload], [], none⟩
  else if !o.publishOk then ⟨[.stage, .upload, .publish], [], none⟩
  else if !o.updateOk then ⟨[.stage, .upload, .publish, .setProps], [], none⟩
  else
    let missing := (create_thumbnail_with_retry o.thumb1Ok o.thumb2Ok o.itemId []).2
    if !o.capOk then
      ⟨[.stage, .upload, .publish, .setProps, .thumbnail, .setCapabilities], missing, none⟩
    else
      ⟨[.stage, .upload, .publish, .setProps, .thumbnail, .setCapabilities], missing,
        some o.itemId⟩

/-- The SQL `UPDATE` in the loop body (OneTimePublish.py:207-211): set
`AGOL_ITEM_ID = id` on every tracking row with the given `TABLENAME`. -/
def writeBackRow (tracker : List Row) (table id : String) : List Row :=
  tracker.map fun r =>
    if r.tablename = table then { r with agolItemId := some id } else r

/-- How one loop iteration ends: `skipped` (a `continue`), `aborted`
(an uncaught exception kills the script), or `published id`. -/
inductive ItemOutcome
  | skipped
  | aborted
  | published (id : String)
deriving DecidableEq, Repr

/-- Result of one iteration of the module-level loop for one worklist row. -/
structure ItemResult where
  trace : List Ev
  tracker : List Row
  missing : List String
  outcome : ItemOutcome
deriving DecidableEq, Repr

/-- One iteration of the module-level loop (OneTimePublish.py:174-213):
describe the source table (a failure prints and `continue`s), skip
non-spatial tables, import/project, look up the category map (a missing
map raises), add to map, run `publish_to_agol` (an escaping exception
kills the script before the write-back), and only then write the
published id back to the tracking table. -/
def runItem (o : Oracle) (r : Row) (tracker : List Row) : ItemResult :=
  if !o.describeOk then ⟨[.describe], tracker, [], .skipped⟩
  else if o.datasetType = "Table" then ⟨[.describe], tracker, [], .skipped⟩
  else
    let pre := .describe :: import_data o
    if !o.mapExists then ⟨pre, tracker, [], .aborted⟩
    else
      let pre := pre ++ add_data_to_map o
      let p := publish_to_agol o
      match p.result with
      | none => ⟨pre ++ p.trace, tracker, p.missing, .aborted⟩
      | some id =>
          ⟨pre ++ p.trace ++ [.writeBack], writeBackRow tracker r.tablename id,
            p.missing, .published id⟩

/-- All conditions under which `publish_to_agol` returns normally and the
loop reaches the write-back for the item (thumbnail failures are caught
and do not abort). -/
def publishSucceeds (o : Oracle) : Bool :=
  o.describeOk && !(o.datasetType = "Table") && o.mapExists &&
    o.stageOk && o.uploadOk && o.publishOk && o.updateOk && o.capOk

/-- `max_publishes` (OneTimePublish.py:170). -/
def max_publishes : Nat := 10

/-- The comparison behind `ORDER BY TABLENAME` on the worklist query,
as a lexicographic comparison of the characters. -/
def leStr : List Char → List Char → Bool
  | [], _ => true
  | _ :: _, [] => false
  | c :: cs, d :: ds =>
      if c.toNat < d.toNat then true
      else if d.toNat < c.toNat then false
      else leStr cs ds

/-- The worklist query (OneTimePublish.py:166-173): rows of
`SGID.META.AGOLItems` with `AGOL_ITEM_ID IS NULL`, ordered by
`TABLENAME`. -/
def worklistQuery (rows : List Row) : List Row :=
  (rows.filter (fun r => r.agolItemId.isNone)).insertionSort
    (fun a b => leStr a.tablename.data b.tablename.data = true)

/-- The module-level loop (OneTimePublish.py:173-213) over the worklist,
threading the tracking table, the publish counter and
`missing_thumbnails`; it breaks once the counter reaches
`max_publishes` and dies on an aborting item. Items are paired with
their outcome oracles. Returns the per-item traces, the final tracking
table, and the final counter. -/
def runLoop : List (Row × Oracle) → List Row → Nat → List (List Ev) × List Row × Nat
  | [], tracker, n => ([], tracker, n)
  | (r, o) :: rest, tracker, n =>
      if max_publishes ≤ n then ([], tracker, n)
      else
        let res := runItem o r tracker
        match res.outcome with
        | .aborted => ([res.trace], res.tracker, n)
        | .skipped =>
            let next := runLoop rest res.tracker n
            (res.trace :: next.1, next.2)
        | .published _ =>
            let next := runLoop rest res.tracker (n + 1)
            (res.trace :: next.1, next.2)

/-- Number of write-back events across the traces of a run. -/
def countWriteBacks (traces : List (List Ev)) : Nat :=
  (traces.map (fun tr => tr.count Ev.writeBack)).sum

end OTP

namespace NS

/-- A data row of the NightStocker worklist CSV:
`[fully-qualified FC name, fc title, credit, method]`. -/
structure Entry where
  fcName : String
  title : String
  credit : String
  method : String
deriving DecidableEq, Repr

/-- The worklist read (NightStocker.py:428-434): skip the header row,
then keep, in file order, exactly the rows whose fourth column is not
`removed`. -/
def read_worklist (rows : List Entry) : List Entry :=
  (rows.drop 1).filter (fun r => !(r.method = "removed"))

/-- `test = layers[0:10]` (NightStocker.py:436): only the first ten
worklist entries are processed. -/
def firstTen (layers : List Entry) : List Entry :=
  layers.take 10

/-- The snippet truncation shared by `OneTimePublish.py:131`
(`metadata['snippet'] = metadata['snippet'][:2047]`) and
`NightStocker.py:281` (`metadata['snippet'][:2047]`): the Python slice
`s[:2047]` over the characters of the snippet string. -/
def truncate_snippet (s : List Char) : List Char :=
  s.take 2047

/-- `log_csv` (NightStocker.py:387-400): append one row to the CSV log
file, modelled as the list of its rows. The write sits in a
`try`/`except IOError` that only prints: when the write raises IOError
nothing is appended and the run continues. -/
def log_csv (ioError : Bool) (actionInfo : List String)
    (file : List (List String)) : List (List String) :=
  if ioError then file else file ++ [actionInfo]

/-- Vendor call sites of the NightStocker loop that the claims mention. -/
inductive Ev
  | describe
  | createSD
  | upload
  | publish
  | logCSV
deriving DecidableEq, Repr

/-- Outcome oracle for one NightStocker worklist entry: whether the
`arcpy.da.Describe` call at line 459 (outside the `try`) succeeds,
whether it reports a non-spatial table, the shape type and description,
whether the toolchain raises `arcpy.ExecuteError` (with its message)
inside `create_service_definition`, whether a later call raises an
exception the `except arcpy.ExecuteError` clause does not catch
(`get_info`'s KeyError on a name missing from metadata.json or its
ValueError at line 277, an arcgis error in `upload_layer`), whether the
CSV write raises IOError, and the item id the publish would return. -/
structure Oracle where
  describeOk : Bool
  isTable : Bool
  shapeType : String
  description : String
  execError : Option String
  uncaughtError : Bool
  ioError : Bool
  itemId : String
deriving DecidableEq, Repr

/-- Everything after the first `.` of the fully-qualified name:
`entry[0].partition('.')[2]` (NightStocker.py:482). -/
def partitionAfterDot (s : List Char) : List Char :=
  match s with
  | [] => []
  | c :: rest => if c = '.' then rest else partitionAfterDot rest

/-- `credit = entry[2] if entry[2] else 'AGRC'` (NightStocker.py:239). -/
def creditOf (e : Entry) : String :=
  if e.credit = "" then "AGRC" else e.credit

/-- `dash_name = entry[1].replace(' ', '-').lower()` and the open-data
endpoint URL built from it (NightStocker.py:480-481). -/
def endpointOf (e : Entry) : String :=
  "https://opendata.gis.utah.gov/datasets/" ++
    String.mk ((e.title.data.map (fun c => if c = ' ' then '-' else c)).map Char.toLower)

/-- The full log row of a successful publish (NightStocker.py:486-487):
AGOL title, operation, SGID name for the stewardship doc, description,
source/credit, shape type, endpoint, AGOL item id. -/
def successLogRow (o : Oracle) (e : Entry) : List String :=
  [e.title, e.method, String.mk (partitionAfterDot e.fcName.data), o.description,
    creditOf e, String.mk (o.shapeType.data.map Char.toLower), endpointOf e, o.itemId]

/-- The log row of a caught `arcpy.ExecuteError`
(NightStocker.py:499-502): the entry title and the toolchain message
with commas replaced by semicolons. -/
def errorLogRow (e : Entry) (msg : String) : List String :=
  [e.title, String.mk (msg.data.map (fun c => if c = ',' then ';' else c))]

/-- Result of one iteration of the NightStocker loop: the vendor calls
made, the CSV file afterwards, the value of the module-level
`log_entry` variable afterwards (`none` when it has never been
assigned), and whether an uncaught exception ends the run. -/
structure EntryResult where
  events : List Ev
  file : List (List String)
  lastLog : Option (List String)
  aborted : Bool
deriving DecidableEq, Repr

/-- One iteration of the NightStocker loop (NightStocker.py:450-506).
`arcpy.da.Describe` (line 459) runs outside the `try`: if it raises,
the run dies with nothing logged. Inside the `try`, a non-spatial table
sets `log_entry` to `Table: not uploaded` and continues; a caught
`arcpy.ExecuteError` sets `log_entry` to the error row; an exception
the clause does not catch leaves `log_entry` at the previous
iteration's value, so the `finally` block appends that stale row again
(or itself raises NameError when no iteration has assigned it) and the
run dies. The `finally` block passes the current `log_entry` to
`log_csv`, whose write can itself hit the handled IOError. `prev` is
the `log_entry` value carried in from earlier iterations. -/
def process_entry (o : Oracle) (e : Entry) (prev : Option (List String))
    (file : List (List String)) : EntryResult :=
  if !o.describeOk then ⟨[.describe], file, prev, true⟩
  else if o.isTable then
    ⟨[.describe, .logCSV], log_csv o.ioError [e.title, "Table: not uploaded"] file,
      some [e.title, "Table: not uploaded"], false⟩
  else
    match o.execError with
    | some msg =>
        ⟨[.describe, .createSD, .logCSV], log_csv o.ioError (errorLogRow e msg) file,
          some (errorLogRow e msg), false⟩
    | none =>
        if o.uncaughtError then
          match prev with
          | some staleRow =>
              ⟨[.describe, .createSD, .logCSV], log_csv o.ioError staleRow file,
                some staleRow, true⟩
          | none => ⟨[.describe, .createSD], file, none, true⟩
        else
          ⟨[.describe, .createSD, .upload, .publish, .logCSV],
            log_csv o.ioError (successLogRow o e) file, some (successLogRow o e), false⟩

/-- The NightStocker loop over the processed entries, threading the CSV
file and the module-level `log_entry` variable; an uncaught exception
ends the run. -/
def runEntries : List (Entry × Oracle) → Option (List String) → List (List String) →
    List (List String)
  | [], _, file => file
  | (e, o) :: rest, prev, file =>
      let res := process_entry o e prev file
      if res.aborted then res.file
      else runEntries rest res.lastLog res.file

/-- A worklist entry that publishes cleanly in the C6 run. -/
def entryA : Entry :=
  ⟨"SGID.BOUNDARIES.Counties", "Utah Counties", "", "static"⟩

/-- A worklist entry whose layer name is missing from metadata.json, so
`get_info` raises an uncaught KeyError. -/
def entryB : Entry :=
  ⟨"SGID.BOUNDARIES.Municipalities", "Utah Municipalities", "", "static"⟩

/-- Oracle for `entryA`: every call succeeds. -/
def oracleA : Oracle :=
  ⟨true, false, "Polygon", "County boundaries", none, false, false, "idA"⟩

/-- Oracle for `entryB`: the toolchain succeeds but `get_info` raises an
exception `except arcpy.ExecuteError` does not catch. -/
def oracleB : Oracle :=
  ⟨true, false, "Polygon", "Municipality boundaries", none, true, false, "idB"⟩

/-- Oracle for a non-spatial table whose CSV write raises IOError. -/
def oracleTableIO : Oracle :=
  ⟨true, true, "", "", none, false, true, "idC"⟩

end NS

namespace SEL

/-- Python `str.lower()` over the characters of a string. -/
def pyLower (s : List Char) : List Char :=
  s.map Char.toLower

/-- Fuel-indexed worker for `pyReplace`; the fuel starts at the string
length, which bounds the number of steps. -/
def replaceAllFuel (pat rep : List Char) : Nat → List Char → List Char
  | _, [] => []
  | 0, s => s
  | fuel + 1, c :: rest =>
      if pat.isPrefixOf (c :: rest) then
        rep ++ replaceAllFuel pat rep fuel (List.drop (pat.length - 1) rest)
      else
        c :: replaceAllFuel pat rep fuel rest

/-- Python `str.replace(pat, rep)`: replace every non-overlapping
occurrence of `pat`, scanning left to right. -/
def pyReplace (s pat rep : List Char) : List Char :=
  if pat = [] then s else replaceAllFuel pat rep s.length s

/-- A character pydash's word splitter keeps: a letter or a digit. -/
def isWordChar (c : Char) : Bool :=
  c.isAlpha || c.isDigit

/-- Two characters belong to the same word run (letters stay with
letters, digits with digits). -/
def sameClass (a b : Char) : Bool :=
  (a.isAlpha && b.isAlpha) || (a.isDigit && b.isDigit)

/-- Worker for `pyWords`: split into maximal runs of same-class word
characters, accumulating the current run in reverse. -/
def wordsAux : List Char → List Char → List (List Char)
  | [], acc => if acc = [] then [] else [acc.reverse]
  | c :: rest, acc =>
      if isWordChar c then
        match acc with
        | [] => wordsAux rest [c]
        | a :: tl =>
            if sameClass a c then wordsAux rest (c :: a :: tl)
            else (a :: tl).reverse :: wordsAux rest [c]
      else if acc = [] then wordsAux rest []
      else acc.reverse :: wordsAux rest []

/-- pydash's `words` on the lowercase strings this script feeds it. -/
def pyWords (s : List Char) : List (List Char) :=
  wordsAux s []

/-- `pydash.strings.kebab_case`: drop apostrophes, split into words,
join with `-`, lowercase. -/
def kebab_case (s : List Char) : List Char :=
  pyLower (List.intercalate [Char.ofNat 45]
    (pyWords (s.filter (fun c => c != Char.ofNat 39))))

/-- A row of `META.AGOLITEMS` as the linker reads it
(`TABLENAME, AGOL_ITEM_ID, AGOL_PUBLISHED_NAME`; NULL is `none`). -/
structure AGOLItemRow where
  tablename : String
  agolItemId : Option String
  publishedName : String
deriving DecidableEq, Repr

/-- The skip condition `agol_id and agol_id.lower() == 'external'`
(main.py:38): a truthy id equal, case-insensitively, to `external`. -/
def isExternal : Option String → Bool
  | none => false
  | some s => !(s = "") && pyLower s.data = "external".data

/-- `table_name.lower().replace('sgid.', '')` (main.py:41): the lookup
key of a tracking row. -/
def tableKey (tablename : String) : List Char :=
  pyReplace (pyLower tablename.data) "sgid.".data []

/-- The open-data URL stored for a tracking row (main.py:41):
`https://opendata.gis.utah.gov/datasets/` followed by
`kebab_case(proper_name.lower())`. -/
def endpointURL (properName : String) : List Char :=
  "https://opendata.gis.utah.gov/datasets/".data ++ kebab_case (pyLower properName.data)

/-- Assignment to a Python dict key, on an association list: overwrite
the value in place if the key exists, otherwise append. -/
def dictInsert (m : List (List Char × List Char)) (k v : List Char) :
    List (List Char × List Char) :=
  if (m.lookup k).isSome then m.map (fun p => if p.1 = k then (k, v) else p)
  else m ++ [(k, v)]

/-- The `table_map` building loop (main.py:37-41): skip rows whose id is
the `EXTERNAL` sentinel, map every other row's key to its open-data
URL. -/
def buildTableMap (rows : List AGOLItemRow) : List (List Char × List Char) :=
  rows.foldl
    (fun m r =>
      if isExternal r.agolItemId then m
      else dictInsert m (tableKey r.tablename) (endpointURL r.publishedName))
    []

/-- A stewardship-sheet row, restricted to the columns the linker
touches: `SGID Data Layer` and `Endpoint`. -/
structure SheetRow where
  sgidDataLayer : String
  endpoint : String
deriving DecidableEq, Repr

/-- The per-row body of the dataframe loop (main.py:50-56): when the
`SGID Data Layer` cell is truthy and its lowercase form is a key of
`table_map`, set the row's `Endpoint` to the mapped URL; otherwise
leave the row alone. -/
def updateRow (m : List (List Char × List Char)) (row : SheetRow) : SheetRow :=
  if row.sgidDataLayer = "" then row
  else
    match m.lookup (pyLower row.sgidDataLayer.data) with
    | some url => { row with endpoint := String.mk url }
    | none => row

/-- The whole dataframe pass: every sheet row is rewritten by
`updateRow`. -/
def updateEndpoints (m : List (List Char × List Char)) (sheet : List SheetRow) :
    List SheetRow :=
  sheet.map (updateRow m)

end SEL

/-! ## The steps the claims enumerate, and sample data for witnesses -/

namespace OTP

/-- The event kinds the publish-pipeline claims enumerate. -/
def claimSteps : List Ev :=
  [.importData, .stage, .upload, .publish, .setProps, .thumbnail, .setCapabilities,
    .writeBack]

/-- A trace restricted to the enumerated pipeline steps. -/
def stepsOf (tr : List Ev) : List Ev :=
  tr.filter (fun e => claimSteps.contains e)

/-- An oracle where every vendor call succeeds and nothing exists yet. -/
def oracleFresh : Oracle :=
  ⟨true, "FeatureClass", false, false, false, true, true, true, true, true, true, true,
    true, "item123"⟩

/-- An oracle whose upload step raises. -/
def oracleUploadFails : Oracle :=
  { oracleFresh with uploadOk := false }

/-- An oracle for a resumed item: geodatabase, projected table and map
layer already exist. -/
def oracleResume : Oracle :=
  { oracleFresh with fgdbExists := true, outputExists := true, layerOnMap := true }

/-- An oracle where both thumbnail attempts raise. -/
def oracleNoThumbs : Oracle :=
  { oracleFresh with thumb1Ok := false, thumb2Ok := false }

/-- An oracle whose Describe reports a non-spatial table. -/
def oracleTable : Oracle :=
  { oracleFresh with datasetType := "Table" }

/-- A sample pending tracking row. -/
def rowW : Row :=
  ⟨"SGID.BOUNDARIES.Counties", "Utah Counties", none⟩

/-- A sample already-published tracking row. -/
def rowDone : Row :=
  ⟨"SGID.BOUNDARIES.Municipalities", "Utah Municipalities", some "abc123"⟩

/-- A sample tracking table. -/
def rowsW : List Row :=
  [rowW, rowDone]

/-- Membership in the events of `import_data`. -/
lemma mem_import_data_iff (o : Oracle) (e : Ev) :
    e ∈ import_data o ↔
      (e = .createFGDB ∧ o.fgdbExists = false) ∨
        (e = .importData ∧ o.outputExists = false) := by
  unfold import_data
  split_ifs with h1 h2 h3 <;> simp_all

/-- Membership in the events of `add_data_to_map`. -/
lemma mem_add_data_to_map_iff (o : Oracle) (e : Ev) :
    e ∈ add_data_to_map o ↔ e = .addToMap ∧ o.layerOnMap = false := by
  unfold add_data_to_map
  split_ifs with h <;> simp_all

/-- `publish_to_agol` never emits the write-back event: that belongs to
the loop body alone. -/
lemma writeBack_not_mem_pub (o : Oracle) :
    Ev.writeBack ∉ (publish_to_agol o).trace := by
  unfold publish_to_agol
  split_ifs <;> simp

/-- The result of `publish_to_agol` is the item id exactly when the
stage, upload, publish, update, and capabilities calls all succeed. -/
lemma pub_result (o : Oracle) :
    (publish_to_agol o).result =
      if o.stageOk && o.uploadOk && o.publishOk && o.updateOk && o.capOk then
        some o.itemId
      else none := by
  obtain ⟨d, dt, fg, oe, lm, me, st, up, pb, ud, t1, t2, cp, iid⟩ := o
  unfold publish_to_agol
  cases st <;> cases up <;> cases pb <;> cases ud <;> cases cp <;> rfl

end OTP

/-! ## The claims -/

/-- C1. For every worklist item, if any step of the publish pipeline
fails before the write-back step, the tracking store row for that item
is left unchanged (its `AGOL_ITEM_ID` stays NULL); the tracking id is
written to `SGID.META.AGOLItems` only after the publish for that item
has completed successfully. -/
theorem claim_C1_tracker_untouched_on_failure (o : OTP.Oracle) (r : OTP.Row)
    (t : List OTP.Row) :
    (OTP.publishSucceeds o = false →
      (OTP.runItem o r t).tracker = t ∧
        OTP.Ev.writeBack ∉ (OTP.runItem o r t).trace) ∧
    (OTP.Ev.writeBack ∈ (OTP.runItem o r t).trace →
      OTP.publishSucceeds o = true ∧
        (OTP.runItem o r t).tracker = OTP.writeBackRow t r.tablename o.itemId) := by
  obtain ⟨d, dt, fg, oe, lm, me, st, up, pb, ud, t1, t2, cp, iid⟩ := o
  by_cases hdt : dt = "Table" <;>
    cases d <;> cases me <;> cases st <;> cases up <;> cases pb <;> cases ud <;>
      cases cp <;>
    simp_all [OTP.runItem, OTP.publish_to_agol, OTP.publishSucceeds,
      OTP.mem_import_data_iff, OTP.mem_add_data_to_map_iff,
      OTP.create_thumbnail_with_retry, OTP.writeBackRow]

/-- C1 witness: with a failing upload step, the tracking table is left
unchanged and no write-back event occurs. -/
theorem claim_C1_tracker_untouched_on_failure_witness :
    (OTP.runItem OTP.oracleUploadFails OTP.rowW OTP.rowsW).tracker = OTP.rowsW ∧
      OTP.Ev.writeBack ∉ (OTP.runItem OTP.oracleUploadFails OTP.rowW OTP.rowsW).trace :=
  (claim_C1_tracker_untouched_on_failure OTP.oracleUploadFails OTP.rowW OTP.rowsW).1
    (by decide)

/-- The step order asserted by claim C2, which groups the capabilities
update with the metadata/tags/sharing step, before the thumbnail. -/
def claimedC2Order : List OTP.Ev :=
  [.importData, .stage, .upload, .publish, .setProps, .setCapabilities, .thumbnail,
    .writeBack]

/-- C2 counterexample: on a fresh, fully successful item the pipeline's
step trace puts the capabilities update (`manager.update_definition`,
OneTimePublish.py:157-158) after the thumbnail creation, so it is not
the order the claim states. -/
theorem claim_C2_counterexample :
    OTP.stepsOf (OTP.runItem OTP.oracleFresh OTP.rowW OTP.rowsW).trace =
      [.importData, .stage, .upload, .publish, .setProps, .thumbnail,
        .setCapabilities, .writeBack] ∧
    OTP.stepsOf (OTP.runItem OTP.oracleFresh OTP.rowW OTP.rowsW).trace ≠
      claimedC2Order := by
  decide

/-- C2 amended: for every worklist item that is published, the
side-effecting steps occur in exactly this order: project to the
reference system (when the projected table does not already exist),
stage the service definition, upload, publish, set
metadata/tags/sharing, create the thumbnail (with retry), set the
capabilities, and finally write back the tracking id. -/
theorem claim_C2_amended_step_order (o : OTP.Oracle) (r : OTP.Row)
    (t : List OTP.Row) (h : OTP.publishSucceeds o = true) :
    OTP.stepsOf (OTP.runItem o r t).trace =
      (if o.outputExists then [] else [OTP.Ev.importData]) ++
        [.stage, .upload, .publish, .setProps, .thumbnail, .setCapabilities,
          .writeBack] := by
  obtain ⟨d, dt, fg, oe, lm, me, st, up, pb, ud, t1, t2, cp, iid⟩ := o
  simp only [OTP.publishSucceeds, Bool.and_eq_true, Bool.not_eq_true',
    decide_eq_false_iff_not] at h
  obtain ⟨⟨⟨⟨⟨⟨⟨hd, hdt⟩, hme⟩, hst⟩, hup⟩, hpb⟩, hud⟩, hcp⟩ := h
  subst hd hme hst hup hpb hud hcp
  cases fg <;> cases oe <;> cases lm <;>
    simp_all [OTP.runItem, OTP.publish_to_agol, OTP.import_data,
      OTP.add_data_to_map, OTP.stepsOf, OTP.claimSteps,
      OTP.create_thumbnail_with_retry]

/-- C2 amended witness: the step order of a fresh successful publish. -/
theorem claim_C2_amended_step_order_witness :
    OTP.stepsOf (OTP.runItem OTP.oracleFresh OTP.rowW OTP.rowsW).trace =
      (if OTP.oracleFresh.outputExists then [] else [OTP.Ev.importData]) ++
        [.stage, .upload, .publish, .setProps, .thumbnail, .setCapabilities,
          .writeBack] :=
  claim_C2_amended_step_order OTP.oracleFresh OTP.rowW OTP.rowsW (by decide)

/-- C3. Publishing is idempotent per item and the batch is resumable:
the worklist query selects only rows whose `AGOL_ITEM_ID` is NULL, so an
item whose tracking id has already been written back is never selected
or republished on a later run, and re-staging an item skips work whose
output (file geodatabase, projected table, map layer) already exists. -/
theorem claim_C3_idempotent_resumable (rows t : List OTP.Row) (table id : String)
    (o : OTP.Oracle) :
    (∀ r ∈ OTP.worklistQuery rows, r.agolItemId = none) ∧
    (∀ r ∈ OTP.worklistQuery (OTP.writeBackRow t table id), r.tablename ≠ table) ∧
    (o.outputExists = true → OTP.Ev.importData ∉ OTP.import_data o) ∧
    (o.fgdbExists = true → OTP.Ev.createFGDB ∉ OTP.import_data o) ∧
    (o.layerOnMap = true → OTP.Ev.addToMap ∉ OTP.add_data_to_map o) := by
  refine ⟨?_, ?_, ?_, ?_, ?_⟩
  · intro r hr
    rw [OTP.worklistQuery, (List.perm_insertionSort _ _).mem_iff] at hr
    have := List.mem_filter.mp hr
    simpa [Option.isNone_iff_eq_none] using this.2
  · intro r hr
    rw [OTP.worklistQuery, (List.perm_insertionSort _ _).mem_iff] at hr
    obtain ⟨hmem, hnone⟩ := List.mem_filter.mp hr
    rw [OTP.writeBackRow, List.mem_map] at hmem
    obtain ⟨x, _, hx⟩ := hmem
    intro heq
    by_cases hxt : x.tablename = table
    · simp [hxt] at hx
      rw [← hx] at hnone
      simp at hnone
    · simp [hxt] at hx
      rw [← hx] at heq
      exact hxt heq
  · intro h
    simp [OTP.mem_import_data_iff, h]
  · intro h
    simp [OTP.mem_import_data_iff, h]
  · intro h
    simp [OTP.mem_add_data_to_map_iff, h]

/-- C3 witness: the already-published sample row is not selected, a row
updated by the write-back is no longer selected, and the resume oracle
performs no import, geodatabase creation or map addition. -/
theorem claim_C3_idempotent_resumable_witness :
    OTP.rowW.agolItemId = none ∧
    (∀ r ∈ OTP.worklistQuery (OTP.writeBackRow OTP.rowsW "SGID.BOUNDARIES.Counties" "new9"),
      r.tablename ≠ "SGID.BOUNDARIES.Counties") ∧
    OTP.Ev.importData ∉ OTP.import_data OTP.oracleResume ∧
    OTP.Ev.createFGDB ∉ OTP.import_data OTP.oracleResume ∧
    OTP.Ev.addToMap ∉ OTP.add_data_to_map OTP.oracleResume := by
  refine ⟨?_, ?_, ?_, ?_, ?_⟩
  · exact (claim_C3_idempotent_resumable OTP.rowsW OTP.rowsW "SGID.BOUNDARIES.Counties"
      "new9" OTP.oracleResume).1 OTP.rowW (by decide)
  · exact (claim_C3_idempotent_resumable OTP.rowsW OTP.rowsW "SGID.BOUNDARIES.Counties"
      "new9" OTP.oracleResume).2.1
  · exact (claim_C3_idempotent_resumable OTP.rowsW OTP.rowsW "SGID.BOUNDARIES.Counties"
      "new9" OTP.oracleResume).2.2.1 (by decide)
  · exact (claim_C3_idempotent_resumable OTP.rowsW OTP.rowsW "SGID.BOUNDARIES.Counties"
      "new9" OTP.oracleResume).2.2.2.1 (by decide)
  · exact (claim_C3_idempotent_resumable OTP.rowsW OTP.rowsW "SGID.BOUNDARIES.Counties"
      "new9" OTP.oracleResume).2.2.2.2 (by decide)

/-- C4. For every published item, if the first thumbnail creation raises
an exception it is retried exactly once; if the retry also fails, the
item's id is appended to the missing-thumbnails list and the item's
publish pipeline continues rather than aborting. -/
theorem claim_C4_thumbnail_retry (o : OTP.Oracle) (r : OTP.Row) (t : List OTP.Row)
    (missing : List String) (h1 : o.thumb1Ok = false) :
    (OTP.create_thumbnail_with_retry o.thumb1Ok o.thumb2Ok o.itemId missing).1 = 2 ∧
    (o.thumb2Ok = false →
      (OTP.create_thumbnail_with_retry o.thumb1Ok o.thumb2Ok o.itemId missing).2 =
          missing ++ [o.itemId] ∧
        (OTP.publishSucceeds o = true →
          (OTP.runItem o r t).outcome = OTP.ItemOutcome.published o.itemId)) := by
  refine ⟨?_, fun h2 => ⟨?_, fun hs => ?_⟩⟩
  · rcases h2 : o.thumb2Ok <;> simp [OTP.create_thumbnail_with_retry, h1, h2]
  · simp [OTP.create_thumbnail_with_retry, h1, h2]
  · obtain ⟨d, dt, fg, oe, lm, me, st, up, pb, ud, t1, t2, cp, iid⟩ := o
    simp only [OTP.publishSucceeds, Bool.and_eq_true, Bool.not_eq_true',
      decide_eq_false_iff_not] at hs
    obtain ⟨⟨⟨⟨⟨⟨⟨hd, hdt⟩, hme⟩, hst⟩, hup⟩, hpb⟩, hud⟩, hcp⟩ := hs
    subst hd hme hst hup hpb hud hcp
    simp_all [OTP.runItem, OTP.publish_to_agol, OTP.create_thumbnail_with_retry]

/-- C4 witness: with both thumbnail attempts failing, two attempts are
made, the id lands in `missing_thumbnails`, and the item is still
published. -/
theorem claim_C4_thumbnail_retry_witness :
    (OTP.create_thumbnail_with_retry OTP.oracleNoThumbs.thumb1Ok
        OTP.oracleNoThumbs.thumb2Ok OTP.oracleNoThumbs.itemId []).1 = 2 ∧
    (OTP.create_thumbnail_with_retry OTP.oracleNoThumbs.thumb1Ok
        OTP.oracleNoThumbs.thumb2Ok OTP.oracleNoThumbs.itemId []).2 =
      [] ++ [OTP.oracleNoThumbs.itemId] ∧
    (OTP.runItem OTP.oracleNoThumbs OTP.rowW OTP.rowsW).outcome =
      OTP.ItemOutcome.published OTP.oracleNoThumbs.itemId := by
  have h := claim_C4_thumbnail_retry OTP.oracleNoThumbs OTP.rowW OTP.rowsW []
    (by decide)
  exact ⟨h.1, (h.2 (by decide)).1, (h.2 (by decide)).2 (by decide)⟩

/-- C6, evaluated at the failing inputs: the code does not guarantee
exactly one CSV row per processed entry, against `log_csv`'s own
docstring (`Every layer should be logged, regardless of success or
failure`). In a two-entry run where the first entry publishes cleanly
and the second hits an exception `except arcpy.ExecuteError` does not
catch (a `get_info` KeyError), the `finally` block re-appends the first
entry's stale `log_entry`, so the successfully published first entry
ends with two identical rows; and a non-spatial entry whose CSV write
hits the handled IOError ends with no row at all. -/
theorem claim_C6_csv_rows_diverge :
    NS.runEntries [(NS.entryA, NS.oracleA), (NS.entryB, NS.oracleB)] none [] =
      [NS.successLogRow NS.oracleA NS.entryA, NS.successLogRow NS.oracleA NS.entryA] ∧
    (NS.runEntries [(NS.entryA, NS.oracleA), (NS.entryB, NS.oracleB)] none []).count
        (NS.successLogRow NS.oracleA NS.entryA) = 2 ∧
    (NS.process_entry NS.oracleTableIO NS.entryA none []).file = [] := by
  refine ⟨?_, ?_, ?_⟩ <;> decide

/-- C7. The NightStocker worklist read from the CSV contains exactly the
data rows of the file (the header row excluded), in file order, whose
fourth column is not `removed`; `removed` entries are never added to the
worklist. -/
theorem claim_C7_worklist_contents (rows : List NS.Entry) :
    List.Sublist (NS.read_worklist rows) (rows.drop 1) ∧
    (∀ e ∈ NS.read_worklist rows, e.method ≠ "removed") ∧
    (∀ e : NS.Entry, e.method ≠ "removed" →
      (NS.read_worklist rows).count e = (rows.drop 1).count e) := by
  refine ⟨List.filter_sublist _, ?_, ?_⟩
  · intro e he
    have := List.mem_filter.mp he
    simpa using this.2
  · intro e he
    exact List.count_filter (by simpa using he)

/-- C7 witness: a concrete worklist with a header and a removed row. -/
theorem claim_C7_worklist_contents_witness :
    (∀ e ∈ NS.read_worklist
      [⟨"h0", "h1", "h2", "h3"⟩, ⟨"SGID.B.X", "X", "", "static"⟩,
        ⟨"SGID.B.Y", "Y", "", "removed"⟩],
      e.method ≠ "removed") ∧
    (NS.read_worklist
        [⟨"h0", "h1", "h2", "h3"⟩, ⟨"SGID.B.X", "X", "", "static"⟩,
          ⟨"SGID.B.Y", "Y", "", "removed"⟩]).count
        ⟨"SGID.B.X", "X", "", "static"⟩ =
      ([⟨"h0", "h1", "h2", "h3"⟩, ⟨"SGID.B.X", "X", "", "static"⟩,
        ⟨"SGID.B.Y", "Y", "", "removed"⟩].drop 1).count
        (⟨"SGID.B.X", "X", "", "static"⟩ : NS.Entry) :=
  ⟨(claim_C7_worklist_contents _).2.1,
    (claim_C7_worklist_contents _).2.2 _ (by decide)⟩

/-- C8. A dataset whose Describe datasetType is `Table` (non-spatial) is
never uploaded or published: OneTimePublish skips such rows before any
staging, and NightStocker records `Table: not uploaded` as the entry's
log row and moves to the next entry without calling the upload step
(the row reaches the CSV file exactly when the write does not hit the
handled IOError). -/
theorem claim_C8_tables_never_uploaded (o : OTP.Oracle) (r : OTP.Row)
    (t : List OTP.Row) (no : NS.Oracle) (e : NS.Entry)
    (prev : Option (List String)) (file : List (List String))
    (hT : o.datasetType = "Table") (hNT : no.isTable = true)
    (hND : no.describeOk = true) :
    ((OTP.runItem o r t).trace = [OTP.Ev.describe] ∧
      (OTP.runItem o r t).outcome = OTP.ItemOutcome.skipped ∧
      (OTP.runItem o r t).tracker = t) ∧
    ((NS.process_entry no e prev file).events = [NS.Ev.describe, NS.Ev.logCSV] ∧
      NS.Ev.upload ∉ (NS.process_entry no e prev file).events ∧
      NS.Ev.publish ∉ (NS.process_entry no e prev file).events ∧
      (NS.process_entry no e prev file).aborted = false ∧
      (NS.process_entry no e prev file).lastLog = some [e.title, "Table: not uploaded"] ∧
      (no.ioError = false →
        (NS.process_entry no e prev file).file =
          file ++ [[e.title, "Table: not uploaded"]]) ∧
      (no.ioError = true → (NS.process_entry no e prev file).file = file)) := by
  constructor
  · rcases h : o.describeOk <;> simp [OTP.runItem, hT, h]
  · rcases hio : no.ioError <;>
      simp [NS.process_entry, hNT, hND, hio, NS.log_csv]

/-- C8 witness: concrete table-typed oracles for both scripts, with a
CSV write that succeeds. -/
theorem claim_C8_tables_never_uploaded_witness :
    ((OTP.runItem OTP.oracleTable OTP.rowW OTP.rowsW).trace = [OTP.Ev.describe] ∧
      (OTP.runItem OTP.oracleTable OTP.rowW OTP.rowsW).outcome =
        OTP.ItemOutcome.skipped ∧
      (OTP.runItem OTP.oracleTable OTP.rowW OTP.rowsW).tracker = OTP.rowsW) ∧
    ((NS.process_entry ⟨true, true, "", "", none, false, false, "i"⟩
          ⟨"SGID.B.X", "X", "", "static"⟩ none []).events =
        [NS.Ev.describe, NS.Ev.logCSV] ∧
      NS.Ev.upload ∉
        (NS.process_entry ⟨true, true, "", "", none, false, false, "i"⟩
          ⟨"SGID.B.X", "X", "", "static"⟩ none []).events ∧
      NS.Ev.publish ∉
        (NS.process_entry ⟨true, true, "", "", none, false, false, "i"⟩
          ⟨"SGID.B.X", "X", "", "static"⟩ none []).events ∧
      (NS.process_entry ⟨true, true, "", "", none, false, false, "i"⟩
          ⟨"SGID.B.X", "X", "", "static"⟩ none []).aborted = false ∧
      (NS.process_entry ⟨true, true, "", "", none, false, false, "i"⟩
          ⟨"SGID.B.X", "X", "", "static"⟩ none []).lastLog =
        some ["X", "Table: not uploaded"] ∧
      ((false : Bool) = false →
        (NS.process_entry ⟨true, true, "", "", none, false, false, "i"⟩
            ⟨"SGID.B.X", "X", "", "static"⟩ none []).file =
          [] ++ [["X", "Table: not uploaded"]]) ∧
      ((false : Bool) = true →
        (NS.process_entry ⟨true, true, "", "", none, false, false, "i"⟩
            ⟨"SGID.B.X", "X", "", "static"⟩ none []).file = [])) :=
  claim_C8_tables_never_uploaded OTP.oracleTable OTP.rowW OTP.rowsW
    ⟨true, true, "", "", none, false, false, "i"⟩ ⟨"SGID.B.X", "X", "", "static"⟩
    none [] (by decide) (by decide) (by decide)

namespace OTP

/-- `import_data` emits no write-back event. -/
lemma count_wb_import (o : Oracle) : (import_data o).count Ev.writeBack = 0 := by
  unfold import_data
  split_ifs <;> rfl

/-- `add_data_to_map` emits no write-back event. -/
lemma count_wb_map (o : Oracle) : (add_data_to_map o).count Ev.writeBack = 0 := by
  unfold add_data_to_map
  split_ifs <;> rfl

/-- `publish_to_agol` emits no write-back event. -/
lemma count_wb_pub (o : Oracle) : ((publish_to_agol o).trace).count Ev.writeBack = 0 := by
  unfold publish_to_agol
  split_ifs <;> rfl

/-- One loop iteration emits one write-back event when it publishes and
none otherwise. -/
lemma count_wb_runItem (o : Oracle) (r : Row) (t : List Row) :
    (runItem o r t).trace.count Ev.writeBack =
      (match (runItem o r t).outcome with
        | .published _ => 1
        | _ => 0) := by
  rcases hres : (publish_to_agol o).result with _ | id <;>
    unfold runItem <;> split_ifs <;>
      simp [hres, List.count_append, count_wb_import, count_wb_map, count_wb_pub]

/-- The loop publishes at most `max_publishes - n` further items when
the counter already stands at `n`. -/
lemma runLoop_count_le (items : List (Row × Oracle)) :
    ∀ (t : List Row) (n : Nat), n ≤ max_publishes →
      countWriteBacks (runLoop items t n).1 + n ≤ max_publishes := by
  induction items with
  | nil =>
      intro t n h
      simpa [runLoop, countWriteBacks] using h
  | cons p rest ih =>
      intro t n h
      obtain ⟨r, o⟩ := p
      rw [runLoop]
      by_cases hn : max_publishes ≤ n
      · simp [hn, countWriteBacks]
        omega
      · simp only [hn, if_false]
        rcases hout : (runItem o r t).outcome with _ | _ | id <;>
          simp only [hout] <;>
          simp [countWriteBacks, count_wb_runItem, hout]
        · have := ih (runItem o r t).tracker n h
          simp [countWriteBacks] at this
          omega
        · omega
        · have := ih (runItem o r t).tracker (n + 1) (by omega)
          simp [countWriteBacks] at this
          omega

end OTP

/-- C9. A single run publishes at most 10 items: OneTimePublish stops
iterating the worklist once its publish counter reaches
`max_publishes = 10`, and NightStocker processes only the first 10
entries of its worklist. -/
theorem claim_C9_at_most_ten_publishes (items : List (OTP.Row × OTP.Oracle))
    (tracker : List OTP.Row) (layers : List NS.Entry) :
    OTP.max_publishes = 10 ∧
    OTP.countWriteBacks (OTP.runLoop items tracker 0).1 ≤ 10 ∧
    (OTP.runLoop items tracker 0).2.2 ≤ 10 ∧
    (NS.firstTen layers).length ≤ 10 := by
  refine ⟨rfl, ?_, ?_, ?_⟩
  · have := OTP.runLoop_count_le items tracker 0 (by decide)
    simpa [OTP.max_publishes] using this
  · have : ∀ (its : List (OTP.Row × OTP.Oracle)) (t : List OTP.Row) (n : Nat),
        n ≤ 10 → (OTP.runLoop its t n).2.2 ≤ 10 := by
      intro its
      induction its with
      | nil => intro t n h; simpa [OTP.runLoop] using h
      | cons p rest ih =>
          intro t n h
          obtain ⟨r, o⟩ := p
          rw [OTP.runLoop]
          by_cases hn : OTP.max_publishes ≤ n
          · simpa [hn] using h
          · simp only [hn, if_false]
            rcases hout : (OTP.runItem o r t).outcome with _ | _ | id <;>
              simp only [hout]
            · exact ih _ n h
            · simpa using h
            · exact ih _ (n + 1) (by simp [OTP.max_publishes] at hn; omega)
    exact this items tracker 0 (by decide)
  · simp [NS.firstTen]

/-- C10. For every published item, the snippet/summary string sent in
the item-properties update is truncated to at most 2047 characters (the
first 2047 characters of the metadata snippet), regardless of the
length of the source metadata. -/
theorem claim_C10_snippet_truncated (s : List Char) :
    (NS.truncate_snippet s).length ≤ 2047 ∧
    List.IsPrefix (NS.truncate_snippet s) s ∧
    (2047 ≤ s.length → (NS.truncate_snippet s).length = 2047) ∧
    (s.length ≤ 2047 → NS.truncate_snippet s = s) := by
  refine ⟨?_, List.take_prefix _ _, fun h => ?_, fun h => ?_⟩
  · simp [NS.truncate_snippet]
  · simp [NS.truncate_snippet]
    omega
  · exact List.take_of_length_le h

/-- C10 witness: a 3000-character snippet is cut to 2047 characters and
a short one passes through unchanged. -/
theorem claim_C10_snippet_truncated_witness :
    (NS.truncate_snippet (List.replicate 3000 'a')).length = 2047 ∧
    NS.truncate_snippet "short snippet".data = "short snippet".data :=
  ⟨(claim_C10_snippet_truncated (List.replicate 3000 'a')).2.2.1
      (by rw [List.length_replicate]; omega),
    (claim_C10_snippet_truncated "short snippet".data).2.2.2 (by decide)⟩

namespace SEL

/-- Overwriting the value at key `k` makes a lookup of `k` return the
new value, provided `k` was present. -/
lemma lookup_overwrite_self (m : List (List Char × List Char)) (k v : List Char)
    (h : (m.lookup k).isSome) :
    (m.map fun p => if p.1 = k then (k, v) else p).lookup k = some v := by
  induction m with
  | nil => simp at h
  | cons p m' ih =>
      obtain ⟨a, b⟩ := p
      by_cases hak : a = k
      · subst hak
        simp
      · have hka : (k == a) = false := by
          rw [beq_eq_false_iff_ne]
          exact fun he => hak he.symm
        simp only [List.lookup_cons, hka, cond_false] at h
        simpa [hak, List.lookup_cons, hka] using ih h

/-- Overwriting the value at key `k` leaves lookups of other keys
unchanged. -/
lemma lookup_overwrite_ne (m : List (List Char × List Char)) (k v k' : List Char)
    (h : k' ≠ k) :
    (m.map fun p => if p.1 = k then (k, v) else p).lookup k' = m.lookup k' := by
  have hkk : (k' == k) = false := by
    rw [beq_eq_false_iff_ne]
    exact h
  induction m with
  | nil => simp
  | cons p m' ih =>
      obtain ⟨a, b⟩ := p
      by_cases hak : a = k
      · subst hak
        simpa [List.lookup_cons, hkk] using ih
      · rcases hka : (k' == a) with _ | _ <;>
          simp [hak, List.lookup_cons, hka, ih]

/-- Looking up the key just written by a dict assignment yields the new
value. -/
lemma lookup_dictInsert_self (m : List (List Char × List Char)) (k v : List Char) :
    (dictInsert m k v).lookup k = some v := by
  unfold dictInsert
  split_ifs with h
  · exact lookup_overwrite_self m k v h
  · rw [List.lookup_append, Option.not_isSome_iff_eq_none.mp h]
    simp

/-- A dict assignment does not change lookups of other keys. -/
lemma lookup_dictInsert_ne (m : List (List Char × List Char)) (k v k' : List Char)
    (h : k' ≠ k) :
    (dictInsert m k v).lookup k' = m.lookup k' := by
  have hkk : (k' == k) = false := by
    rw [beq_eq_false_iff_ne]
    exact h
  unfold dictInsert
  split_ifs with hs
  · exact lookup_overwrite_ne m k v k' h
  · rw [List.lookup_append]
    simp [List.lookup_cons, hkk]

/-- Looking up a key in the `table_map` fold run from any starting dict:
the last non-external tracking row with that key wins, and otherwise
the starting dict answers. -/
lemma lookup_foldl_tableMap (rows : List AGOLItemRow)
    (m : List (List Char × List Char)) (k : List Char) :
    ((rows.foldl
        (fun m r =>
          if isExternal r.agolItemId then m
          else dictInsert m (tableKey r.tablename) (endpointURL r.publishedName))
        m).lookup k) =
      (match rows.reverse.find? (fun r =>
          !isExternal r.agolItemId && decide (tableKey r.tablename = k)) with
        | some r => some (endpointURL r.publishedName)
        | none => m.lookup k) := by
  induction rows generalizing m with
  | nil => simp
  | cons r rest ih =>
      rw [List.foldl_cons, ih, List.reverse_cons, List.find?_append]
      rcases hfind : rest.reverse.find? (fun r =>
          !isExternal r.agolItemId && decide (tableKey r.tablename = k)) with _ | r'
      · rcases hext : isExternal r.agolItemId with _ | _
        · by_cases hkey : tableKey r.tablename = k
          · rw [← hkey]
            simp [List.find?, hext, hkey, hfind, lookup_dictInsert_self]
          · simp [List.find?, hext, hkey, hfind,
              lookup_dictInsert_ne _ _ _ _ (fun he => hkey he.symm)]
        · simp [List.find?, hext, hfind]
      · simp [hfind]

/-- Looking up a key in the finished `table_map`: the last non-external
tracking row with that key provides the URL; absent keys are absent. -/
lemma lookup_buildTableMap (rows : List AGOLItemRow) (k : List Char) :
    (buildTableMap rows).lookup k =
      (match rows.reverse.find? (fun r =>
          !isExternal r.agolItemId && decide (tableKey r.tablename = k)) with
        | some r => some (endpointURL r.publishedName)
        | none => none) := by
  rw [buildTableMap, lookup_foldl_tableMap]
  rcases rows.reverse.find? (fun r =>
      !isExternal r.agolItemId && decide (tableKey r.tablename = k)) with _ | r' <;>
    simp

end SEL

/-- C5. For every row of the tracking table whose `AGOL_ITEM_ID` is not
the sentinel `EXTERNAL` (compared case-insensitively), the
stewardship-endpoint-linker writes into the matching stewardship
spreadsheet row's Endpoint column the URL
`https://opendata.gis.utah.gov/datasets/` followed by the kebab-case of
the lowercased published name; rows whose `SGID Data Layer` does not
match any tracked table are left unchanged. -/
theorem claim_C5_stewardship_endpoint_links (rows : List SEL.AGOLItemRow)
    (row : SEL.SheetRow) (rr : SEL.AGOLItemRow)
    (hfind : rows.reverse.find? (fun x =>
        !SEL.isExternal x.agolItemId &&
          decide (SEL.tableKey x.tablename = SEL.pyLower row.sgidDataLayer.data)) =
      some rr)
    (hne : row.sgidDataLayer ≠ "") :
    SEL.updateRow (SEL.buildTableMap rows) row =
      { row with
        endpoint := String.mk ("https://opendata.gis.utah.gov/datasets/".data ++
          SEL.kebab_case (SEL.pyLower rr.publishedName.data)) } ∧
    (∀ row2 : SEL.SheetRow,
      rows.reverse.find? (fun x =>
          !SEL.isExternal x.agolItemId &&
            decide (SEL.tableKey x.tablename = SEL.pyLower row2.sgidDataLayer.data)) =
        none →
      SEL.updateRow (SEL.buildTableMap rows) row2 = row2) := by
  constructor
  · have hl := SEL.lookup_buildTableMap rows (SEL.pyLower row.sgidDataLayer.data)
    rw [hfind] at hl
    rw [SEL.updateRow, if_neg hne, hl]
    rfl
  · intro row2 hnone
    have hl := SEL.lookup_buildTableMap rows (SEL.pyLower row2.sgidDataLayer.data)
    rw [hnone] at hl
    rw [SEL.updateRow]
    by_cases h2 : row2.sgidDataLayer = ""
    · rw [if_pos h2]
    · rw [if_neg h2, hl]

/-- C5 witness: a pending Counties row is linked into the matching sheet
row, and a sheet row matching no tracked table is left unchanged. -/
theorem claim_C5_stewardship_endpoint_links_witness :
    SEL.updateRow
        (SEL.buildTableMap
          [⟨"SGID.BOUNDARIES.Counties", none, "Utah Counties"⟩,
            ⟨"SGID.ENERGY.OilGasWells", some "EXTERNAL", "Utah Oil and Gas Wells"⟩])
        ⟨"BOUNDARIES.Counties", ""⟩ =
      ⟨"BOUNDARIES.Counties", "https://opendata.gis.utah.gov/datasets/utah-counties"⟩ ∧
    SEL.updateRow
        (SEL.buildTableMap
          [⟨"SGID.BOUNDARIES.Counties", none, "Utah Counties"⟩,
            ⟨"SGID.ENERGY.OilGasWells", some "EXTERNAL", "Utah Oil and Gas Wells"⟩])
        ⟨"ENERGY.OilGasWells", "keep"⟩ =
      ⟨"ENERGY.OilGasWells", "keep"⟩ := by
  have h := claim_C5_stewardship_endpoint_links
    [⟨"SGID.BOUNDARIES.Counties", none, "Utah Counties"⟩,
      ⟨"SGID.ENERGY.OilGasWells", some "EXTERNAL", "Utah Oil and Gas Wells"⟩]
    ⟨"BOUNDARIES.Counties", ""⟩
    ⟨"SGID.BOUNDARIES.Counties", none, "Utah Counties"⟩
    (by decide) (by decide)
  refine ⟨?_, h.2 ⟨"ENERGY.OilGasWells", "keep"⟩ (by decide)⟩
  rw [h.1]
  decide
